import Mathlib

/-!
Verification of the IntelliQuery Intent Agent pipeline.

The transport shell (src/backend/app.py) is embedded directly from the
source.  The pipeline core — `services.intent_agent.agent_orchestrator`
(Validation Gate, Intent Orchestrator, Pipeline Status Aggregator) and
`services.intent_agent.schema_validator` — is imported by the shell but its
source is not part of the repository snapshot; those components are
modelled from the specification, as marked in their doc comments.
-/

deriving instance DecidableEq for Except

namespace IntentAgent

/-- The whitespace characters Python's `str.strip()` removes. -/
def pyWhitespace (c : Char) : Bool :=
  c = ' ' || c = '\t' || c = '\n' || c = '\x0d' || c = '\x0b' || c = '\x0c'

/-- Python's `str.strip()` (src/backend/app.py line 504): drop leading and
trailing whitespace. -/
def pyStrip (s : String) : String :=
  String.mk (((s.toList.dropWhile pyWhitespace).reverse.dropWhile pyWhitespace).reverse)

/-- The fixed enumerated set of intent types.
Modelled from the spec: the enumerated set of §3 is given as
"e.g. read, update, compare, predict, analyze" (non-exhaustive); "unknown"
is included because §4.2 step 5 classifies any unrecognized type as
"unknown" and step 6 requires the normalized draft to pass the Schema
Validator of §4.3, so "unknown" must itself be schema-valid. -/
def intentTypes : List String := ["read", "update", "compare", "predict", "analyze", "unknown"]

/-- A candidate intent structure as seen by the Schema Validator: a JSON
mapping where each of the four required keys may be present or absent.
Entity values carry no type enforcement at this layer (§4.3), so their
payload is modelled as a string.  Numeric confidence is modelled as `ℚ`. -/
structure Candidate where
  intent_type : Option String
  workspaces : Option (List String)
  entities : Option (List (String × String))
  confidence : Option ℚ
deriving DecidableEq

/-- Modelled from the spec: §4.3 category 1 — all required keys present
(`services/intent_agent/schema_validator.py` is not under src/; only its
call sites in src/backend/app.py are visible). -/
def missingKeys (c : Candidate) : List String :=
  (if c.intent_type.isSome then [] else ["missing required key: intent_type"]) ++
  (if c.workspaces.isSome then [] else ["missing required key: workspaces"]) ++
  (if c.entities.isSome then [] else ["missing required key: entities"]) ++
  (if c.confidence.isSome then [] else ["missing required key: confidence"])

/-- Modelled from the spec: §4.3 — intent_type must lie in the enumerated set. -/
def typeViolations (c : Candidate) : List String :=
  match c.intent_type with
  | some t => if t ∈ intentTypes then [] else ["intent_type not in enumerated set"]
  | none => []

/-- Modelled from the spec: §4.3 — workspaces is a set of non-empty strings
(duplicates collapse silently, so duplication is not a violation). -/
def workspaceViolations (c : Candidate) : List String :=
  match c.workspaces with
  | some ws => if ws.all (fun w => w ≠ "") then [] else ["workspaces must be non-empty strings"]
  | none => []

/-- Modelled from the spec: §4.3 — confidence numeric and within
[0.0, 1.0] inclusive; boundary values are valid. -/
def confidenceViolations (c : Candidate) : List String :=
  match c.confidence with
  | some x => if 0 ≤ x ∧ x ≤ 1 then [] else ["confidence out of range"]
  | none => []

/-- First failing category of checks: §4.3 short-circuits on the first
category of failure but collects all violations within a category. -/
def firstFailing : List (List String) → List String
  | [] => []
  | [] :: rest => firstFailing rest
  | (v :: vs) :: _ => v :: vs

/-- Modelled from the spec: ordered §4.3 rule categories, short-circuiting
on the first failing category.  (Entities carry no checks beyond presence:
"no further type enforcement at this layer".) -/
def schemaViolations (c : Candidate) : List String :=
  firstFailing [missingKeys c, typeViolations c, workspaceViolations c, confidenceViolations c]

/-- Modelled from the spec: `validate_intent_schema`, the boolean face of
the Schema Validator (§4.3): valid iff no violation was collected. -/
def validate_intent_schema (c : Candidate) : Bool :=
  (schemaViolations c).isEmpty

/-! ## Validation Gate (§4.1) -/

/-- The verdict produced by the Validation Gate (§3).  `raw_diagnostics`
is omitted: no claim concerns it. -/
structure ValidationVerdict where
  is_coherent : Bool
  is_valid : Bool
  reasons : List String
deriving DecidableEq

/-- Modelled from the spec: the external linguistic-judgment collaborator
used by the Validation Gate (§4.1, §9 open question).  `coherent` is the
stage-1 judgment; `completenessReasons` is the stage-2 judgment, returning
`none` when the query is complete/actionable and `some reasons` when not;
`incoherenceReasons` explains a stage-1 failure. -/
structure LangModel where
  coherent : String → Bool
  completenessReasons : String → Option (List String)
  incoherenceReasons : String → List String

/-- Modelled from the spec: the two-stage Validation Gate (§4.1), here
instrumented with the number of stage-2 (completeness) invocations so that
"stage 2 is skipped" is observable — the call-count probe of §8. -/
def validateRun (m : LangModel) (q : String) : ValidationVerdict × Nat :=
  if m.coherent q then
    match m.completenessReasons q with
    | none => ({ is_coherent := true, is_valid := true, reasons := [] }, 1)
    | some rs => ({ is_coherent := true, is_valid := false, reasons := rs }, 1)
  else
    ({ is_coherent := false, is_valid := false, reasons := m.incoherenceReasons q }, 0)

/-- Modelled from the spec: `validate(query) -> ValidationVerdict` (§4.1). -/
def validate (m : LangModel) (q : String) : ValidationVerdict :=
  (validateRun m q).1

/-- Modelled from the spec: §4.1 "No side effects beyond producing the
verdict" — the state-passing form of `validate` returns the verdict
together with the (unchanged) language-model state. -/
def validateSt (m : LangModel) (q : String) : ValidationVerdict × LangModel :=
  (validate m q, m)

/-! ## Intent Orchestrator (§4.2) -/

/-- A catalog entry (§3).  `schema_hints` is omitted: no claim concerns it. -/
structure WorkspaceEntry where
  id : String
  display_name : String
deriving DecidableEq

/-- A structured intent (§3). -/
structure IntentCandidate where
  intent_type : String
  workspaces : List String
  entities : List (String × String)
  confidence : ℚ
deriving DecidableEq

/-- The structured draft returned by the external language-understanding
service (§4.2 step 4) before normalization. -/
structure IntentDraft where
  intent_type : String
  entities : List (String × String)
  confidence : ℚ
deriving DecidableEq

/-- The orchestrator's typed failures (§7): external-service failure and
schema violation, as distinct kinds. -/
inductive ExtractError where
  | externalServiceError (detail : String)
  | schemaViolation (violations : List String)
deriving DecidableEq

/-- Modelled from the spec: the Intent Orchestrator's collaborators (§4.2,
§6): the catalog, the similarity-index lookup (embedding + top-K retrieval,
steps 1–2, which may return stale identifiers), and the
language-understanding call (step 4), which may fail with a service error. -/
structure OrchestratorCore where
  catalog : List WorkspaceEntry
  indexLookup : String → List String
  completeDraft : String → List String → Except String IntentDraft

/-- The identifiers known to the current catalog. -/
def catalogIds (o : OrchestratorCore) : List String :=
  o.catalog.map (fun e => e.id)

/-- Modelled from the spec: §4.2 step 3 — candidate workspace identifiers
from the retrieved entries, filtered to those that still exist in the
current Workspace Catalog (guards against stale index entries). -/
def resolvedWorkspaces (o : OrchestratorCore) (q : String) : List String :=
  (o.indexLookup q).filter (fun wid => o.catalog.any (fun e => e.id == wid))

/-- Modelled from the spec: §4.2 step 5 — clamp confidence into [0.0, 1.0]. -/
def clamp01 (x : ℚ) : ℚ :=
  if x < 0 then 0 else if 1 < x then 1 else x

/-- Modelled from the spec: §4.2 step 5 — an intent_type outside the
enumerated set is classified as "unknown" rather than propagated. -/
def normalizeIntentType (s : String) : String :=
  if s ∈ intentTypes then s else "unknown"

/-- View a complete `IntentCandidate` as a `Candidate` mapping with all
four required keys present, for the Schema Validator. -/
def candidateOf (c : IntentCandidate) : Candidate :=
  { intent_type := some c.intent_type
    workspaces := some c.workspaces
    entities := some c.entities
    confidence := some c.confidence }

/-- Modelled from the spec: §4.2 step 5 — the normalized candidate built
from a service draft: normalized intent_type, resolved workspaces, the
draft's entities, clamped confidence. -/
def draftCandidate (o : OrchestratorCore) (q : String) (draft : IntentDraft) :
    IntentCandidate :=
  { intent_type := normalizeIntentType draft.intent_type
    workspaces := resolvedWorkspaces o q
    entities := draft.entities
    confidence := clamp01 draft.confidence }

/-- Modelled from the spec: `extract(query) -> IntentCandidate` (§4.2
steps 1–6): resolve workspaces against the catalog, call the
language-understanding service, normalize confidence and intent_type, and
run the result through the Schema Validator; service failure and schema
failure surface as distinct error kinds, never as a default candidate. -/
def extract (o : OrchestratorCore) (q : String) : Except ExtractError IntentCandidate :=
  match o.completeDraft q (resolvedWorkspaces o q) with
  | .error d => .error (.externalServiceError d)
  | .ok draft =>
      if validate_intent_schema (candidateOf (draftCandidate o q draft)) then
        .ok (draftCandidate o q draft)
      else
        .error (.schemaViolation (schemaViolations (candidateOf (draftCandidate o q draft))))

/-! ## Pipeline Status Aggregator (§4.4) and the shell orchestrator object -/

/-- The status snapshot (§3), with the size keys named as in
src/backend/app.py (`workspace_catalog_size`, `faiss_index_size`). -/
structure PipelineStatus where
  workspace_catalog_size : Nat
  faiss_index_size : Nat
  operational : Bool
deriving DecidableEq

/-- The kind of a fault raised inside the pipeline, i.e. the Python
exception class (§7 taxonomy, plus an ordinary programming fault). -/
inductive FaultKind where
  | externalService
  | schemaFault
  | otherFault
deriving DecidableEq

/-- A failure raised by the pipeline, as a Python exception seen by the
shell's broad `except` handlers: its class (the kind) and its message
(`str(e)` keeps only the message). -/
structure Fault where
  kind : FaultKind
  detail : String
deriving DecidableEq

/-- The verdict-plus-intent payload (`intent_analysis` in
src/backend/app.py) of a completed pipeline run: the PipelineResult of §3
without the echoed query/metadata. -/
structure IntentAnalysis where
  validation : ValidationVerdict
  intent : Option IntentCandidate
deriving DecidableEq

/-- A completed `run_intent_agent` result as consumed by the shell
(src/backend/app.py lines 517–529): an `intent_analysis` part and a
`metadata` part. -/
structure AgentResult where
  intent_analysis : IntentAnalysis
  metadata : List (String × String)
deriving DecidableEq

/-- Modelled from the spec: the `IntentAgentOrchestrator` instance held by
the shell (`services/intent_agent/agent_orchestrator.py` is not under
src/): the catalog and index resources, the two required external
collaborators of §6 (embedding provider, language-understanding service,
`none` when uninitialized), and the behavior of its `run_intent_agent`
method as a function from the query to a completed result or a raised
fault. -/
structure Orchestrator where
  catalog : List WorkspaceEntry
  index : List String
  embedder : Option Unit
  languageService : Option Unit
  run : String → Except Fault AgentResult

/-- Modelled from the spec: `get_pipeline_status` (§4.4) — a pure read of
the current catalog/index sizes; "operational" is true iff the
Orchestrator's required collaborators are initialized (non-null),
regardless of whether the catalog or index are empty. -/
def get_pipeline_status (o : Orchestrator) : PipelineStatus :=
  { workspace_catalog_size := o.catalog.length
    faiss_index_size := o.index.length
    operational := o.embedder.isSome && o.languageService.isSome }

/-! ## Transport shell (src/backend/app.py) -/

/-- An incoming request to POST /api/intent as the shell inspects it
(src/backend/app.py lines 493–510): whether it is JSON, whether a body is
present, the raw `query` field (`data.get('query', '')`, so an absent
field is the empty string), and the `include_metadata` flag. -/
structure IntentRequest where
  isJson : Bool
  hasBody : Bool
  query : String
  include_metadata : Bool

/-- The shell's JSON replies from /api/intent (src/backend/app.py):
an early 400 rejection, the 200 success envelope (lines 522–536), or the
500 envelope built by the broad `except` handler (lines 538–548) whose
`error` field is the fixed string "Internal server error" and whose
`message` is the stringified exception. -/
inductive ApiResponse where
  | errorResp (error : String) (code : Nat)
  | successResp (query : String) (analysis : IntentAnalysis)
      (metadata : Option (List (String × String))) (code : Nat)
  | failureResp (error : String) (message : String) (code : Nat)
deriving DecidableEq

/-- Which pipeline entry point the shell invoked, and with which query
(src/backend/app.py lines 515–519): the module-level `run_intent_agent`
fallback when the global orchestrator is `None`, or the orchestrator's
method. -/
inductive PipelineCall where
  | viaFallback (q : String)
  | viaOrchestrator (q : String)
deriving DecidableEq

/-- The query string a `PipelineCall` carries. -/
def callQuery : PipelineCall → String
  | .viaFallback q => q
  | .viaOrchestrator q => q

/-- The pipeline entry point `get_intent` uses (src/backend/app.py lines
515–519): the module-level fallback when the orchestrator is `None`. -/
def pipelineFor (orch : Option Orchestrator)
    (fallback : String → Except Fault AgentResult) : String → Except Fault AgentResult :=
  match orch with
  | none => fallback
  | some o => o.run

/-- The tag recording which entry point was used. -/
def callTag (orch : Option Orchestrator) (q : String) : PipelineCall :=
  match orch with
  | none => .viaFallback q
  | some _ => .viaOrchestrator q

/-- How `get_intent` turns a pipeline outcome into a reply
(src/backend/app.py lines 521–548): a completed run becomes the 200
success envelope embedding `intent_analysis` (and `metadata` when
requested); a raised fault is caught by the broad `except` handler and
becomes `{'success': False, 'error': 'Internal server error',
'message': str(e)}` with 500 — only the exception's message text survives. -/
def respond (query : String) (includeMeta : Bool)
    (r : Except Fault AgentResult) : ApiResponse :=
  match r with
  | .ok res =>
      .successResp query res.intent_analysis
        (if includeMeta then some res.metadata else none) 200
  | .error f => .failureResp "Internal server error" f.detail 500

/-- `get_intent` (src/backend/app.py lines 477–548), instrumented with the
list of pipeline invocations it performs: reject non-JSON, missing body,
and a query that is empty after `.strip()`, each with 400 before the
pipeline is touched; otherwise run the pipeline on the trimmed query. -/
def get_intentRun (orch : Option Orchestrator)
    (fallback : String → Except Fault AgentResult)
    (req : IntentRequest) : ApiResponse × List PipelineCall :=
  if req.isJson = false then
    (.errorResp "Content-Type must be application/json" 400, [])
  else if req.hasBody = false then
    (.errorResp "Request body is required" 400, [])
  else
    let query := pyStrip req.query
    if query = "" then
      (.errorResp "Query field is required and cannot be empty" 400, [])
    else
      (respond query req.include_metadata (pipelineFor orch fallback query),
       [callTag orch query])

/-- `get_intent` proper: the reply sent to the HTTP caller. -/
def get_intent (orch : Option Orchestrator)
    (fallback : String → Except Fault AgentResult)
    (req : IntentRequest) : ApiResponse :=
  (get_intentRun orch fallback req).1

/-- Replies from GET /api/status (src/backend/app.py lines 551–586). -/
inductive StatusResponse where
  | operationalResp (pipeline : PipelineStatus) (code : Nat)
  | errorStatus (message : String) (code : Nat)
deriving DecidableEq

/-- `get_status` (src/backend/app.py lines 551–586): with no orchestrator
the handler returns the error envelope with 500 (it does not raise);
otherwise it reports status "operational" with the pipeline snapshot.  The
handler's own `except` branch is unreachable here because
`get_pipeline_status` is a pure read (§4.4). -/
def get_status (orch : Option Orchestrator) : StatusResponse :=
  match orch with
  | none => .errorStatus "Orchestrator not initialized" 500
  | some o => .operationalResp (get_pipeline_status o) 200

/-- The `checks` mapping built by `health_check` (src/backend/app.py lines
599–611); the pipeline-derived entries exist only when the orchestrator is
initialized. -/
structure HealthChecks where
  orchestrator_initialized : Bool
  pipeline_components : Option PipelineStatus
  faiss_index_available : Option Bool
  workspace_catalog_loaded : Option Bool
deriving DecidableEq

/-- A reply from GET /api/health. -/
structure HealthResponse where
  status : String
  checks : HealthChecks
  code : Nat
deriving DecidableEq

/-- `health_check` (src/backend/app.py lines 589–632): builds the checks,
then `overall_health = 'healthy' if orchestrator_initialized else
'degraded'` with 200 respectively 503.  The `except` branch (unhealthy,
500) is unreachable here because `get_pipeline_status` is a pure read
(§4.4). -/
def health_check (orch : Option Orchestrator) : HealthResponse :=
  let checks : HealthChecks :=
    match orch with
    | none =>
        { orchestrator_initialized := false
          pipeline_components := none
          faiss_index_available := none
          workspace_catalog_loaded := none }
    | some o =>
        let ps := get_pipeline_status o
        { orchestrator_initialized := true
          pipeline_components := some ps
          faiss_index_available := some (decide (0 < ps.faiss_index_size))
          workspace_catalog_loaded := some (decide (0 < ps.workspace_catalog_size)) }
  let overall := if checks.orchestrator_initialized then "healthy" else "degraded"
  { status := overall
    checks := checks
    code := if checks.orchestrator_initialized then 200 else 503 }

/-! ## Theorems -/

/-- `firstFailing` yields no violations exactly when every category is
clean. -/
theorem firstFailing_eq_nil_iff (l : List (List String)) :
    firstFailing l = [] ↔ ∀ v ∈ l, v = [] := by
  induction l with
  | nil => simp [firstFailing]
  | cons v rest ih =>
      cases v with
      | nil => simpa [firstFailing] using ih
      | cons x xs => simp [firstFailing]

/-- The Schema Validator accepts exactly when every rule category is
clean. -/
theorem validate_intent_schema_eq_true_iff (c : Candidate) :
    validate_intent_schema c = true ↔
      missingKeys c = [] ∧ typeViolations c = [] ∧
      workspaceViolations c = [] ∧ confidenceViolations c = [] := by
  simp [validate_intent_schema, schemaViolations, List.isEmpty_iff,
    firstFailing_eq_nil_iff]

/-- C2: for every language-model state and query, if the verdict's
is_coherent is false then is_valid is not true, and the stage-2
completeness check was invoked zero times (stage 2 runs only when the
coherence check passed). -/
theorem validate_incoherent_skips_stage_two (m : LangModel) (q : String)
    (h : (validate m q).is_coherent = false) :
    (validate m q).is_valid ≠ true ∧ (validateRun m q).2 = 0 := by
  unfold validate validateRun at *
  cases hc : m.coherent q with
  | false => simp [hc]
  | true =>
      rw [hc] at h
      cases hr : m.completenessReasons q <;> rw [hr] at h <;> simp at h

/-- C2 witness: a concrete language model judging every query incoherent,
applied to the gibberish scenario query. -/
theorem validate_incoherent_skips_stage_two_witness :
    (validate ⟨fun _ => false, fun _ => none, fun _ => ["gibberish"]⟩
        "asdkj qwoeiru").is_valid ≠ true ∧
      (validateRun ⟨fun _ => false, fun _ => none, fun _ => ["gibberish"]⟩
        "asdkj qwoeiru").2 = 0 :=
  validate_incoherent_skips_stage_two
    ⟨fun _ => false, fun _ => none, fun _ => ["gibberish"]⟩ "asdkj qwoeiru" rfl

/-- C3: the Schema Validator rejects any candidate missing one of the four
required keys (intent_type, workspaces, entities, confidence), accepts the
minimal valid shape with confidence 0.0, and accepts confidence exactly
1.0 (boundary values inclusive). -/
theorem schema_required_keys_and_boundaries :
    (∀ c : Candidate, c.intent_type = none → validate_intent_schema c = false) ∧
    (∀ c : Candidate, c.workspaces = none → validate_intent_schema c = false) ∧
    (∀ c : Candidate, c.entities = none → validate_intent_schema c = false) ∧
    (∀ c : Candidate, c.confidence = none → validate_intent_schema c = false) ∧
    validate_intent_schema
      ⟨some "read", some ["sales"], some [], some (0 : ℚ)⟩ = true ∧
    validate_intent_schema
      ⟨some "read", some ["sales"], some [], some (1 : ℚ)⟩ = true := by
  refine ⟨?_, ?_, ?_, ?_, ?_, ?_⟩
  · intro c h
    rcases c with ⟨it, ws, en, cf⟩
    simp only at h
    subst h
    simp [validate_intent_schema, schemaViolations, firstFailing, missingKeys]
  · intro c h
    rcases c with ⟨it, ws, en, cf⟩
    simp only at h
    subst h
    cases it <;>
      simp [validate_intent_schema, schemaViolations, firstFailing, missingKeys]
  · intro c h
    rcases c with ⟨it, ws, en, cf⟩
    simp only at h
    subst h
    cases it <;> cases ws <;>
      simp [validate_intent_schema, schemaViolations, firstFailing, missingKeys]
  · intro c h
    rcases c with ⟨it, ws, en, cf⟩
    simp only at h
    subst h
    cases it <;> cases ws <;> cases en <;>
      simp [validate_intent_schema, schemaViolations, firstFailing, missingKeys]
  · decide
  · decide

/-- C3 witness: a concrete candidate missing intent_type is rejected. -/
theorem schema_required_keys_and_boundaries_witness :
    validate_intent_schema ⟨none, some ["sales"], some [], some (0 : ℚ)⟩ = false :=
  schema_required_keys_and_boundaries.1 ⟨none, some ["sales"], some [], some (0 : ℚ)⟩ rfl

/-- C8: validate() is deterministic and idempotent — a second call on the
same query against the state returned by the first call yields the
identical verdict, and the language-model state is unchanged. -/
theorem validate_idempotent (m : LangModel) (q : String) :
    (validateSt (validateSt m q).2 q).1 = (validateSt m q).1 ∧
      (validateSt (validateSt m q).2 q).2 = m := by
  constructor <;> rfl

/-- Every resolved workspace identifier exists in the current catalog. -/
theorem resolvedWorkspaces_subset_catalog (o : OrchestratorCore) (q : String) :
    ∀ w ∈ resolvedWorkspaces o q, w ∈ catalogIds o := by
  intro w hw
  unfold resolvedWorkspaces at hw
  have h2 := (List.mem_filter.mp hw).2
  rcases List.any_eq_true.mp h2 with ⟨e, he, heq⟩
  have hid : e.id = w := by simpa using heq
  exact hid ▸ List.mem_map_of_mem (fun e => e.id) he

/-- Clamped confidence is never negative. -/
theorem clamp01_nonneg (x : ℚ) : 0 ≤ clamp01 x := by
  unfold clamp01
  by_cases h1 : x < 0
  · simp only [if_pos h1]
    exact le_refl 0
  · by_cases h2 : 1 < x
    · simp only [if_neg h1, if_pos h2]
      norm_num
    · simp only [if_neg h1, if_neg h2]
      exact not_lt.mp h1

/-- Clamped confidence never exceeds one. -/
theorem clamp01_le_one (x : ℚ) : clamp01 x ≤ 1 := by
  unfold clamp01
  by_cases h1 : x < 0
  · simp only [if_pos h1]
    norm_num
  · by_cases h2 : 1 < x
    · simp only [if_neg h1, if_pos h2]
      exact le_refl 1
    · simp only [if_neg h1, if_neg h2]
      exact not_lt.mp h2

/-- A normalized intent type always lies in the enumerated set. -/
theorem normalizeIntentType_mem (s : String) : normalizeIntentType s ∈ intentTypes := by
  unfold normalizeIntentType
  split
  · assumption
  · decide

/-- C1: every IntentCandidate returned by extract() has workspaces that
are all currently-known catalog ids (stale index hits filtered out),
confidence clamped into [0, 1], intent_type inside the enumerated set, and
any intent_type outside the enumerated set is normalized to "unknown"
rather than propagated. -/
theorem extract_candidate_invariants (o : OrchestratorCore) (q : String)
    (cand : IntentCandidate) (h : extract o q = .ok cand) :
    (∀ w ∈ cand.workspaces, w ∈ catalogIds o) ∧
      0 ≤ cand.confidence ∧ cand.confidence ≤ 1 ∧
      cand.intent_type ∈ intentTypes ∧
      ∀ s, s ∉ intentTypes → normalizeIntentType s = "unknown" := by
  unfold extract at h
  split at h
  · exact absurd h (by simp)
  · split at h
    · injection h with h
      subst h
      exact ⟨resolvedWorkspaces_subset_catalog o q, clamp01_nonneg _,
        clamp01_le_one _, normalizeIntentType_mem _,
        fun s hs => by simp [normalizeIntentType, hs]⟩
    · exact absurd h (by simp)

/-- Concrete orchestrator: one catalog entry, an index returning one live
and one stale identifier, a service draft with an out-of-range confidence
and an unrecognized intent type. -/
def demoCore : OrchestratorCore :=
  { catalog := [⟨"sales", "Sales"⟩]
    indexLookup := fun _ => ["sales", "stale_ws"]
    completeDraft := fun _ _ => .ok ⟨"frobnicate", [], (3 : ℚ)⟩ }

/-- C1 witness: `demoCore` yields a concrete ok candidate satisfying the
invariants. -/
theorem extract_candidate_invariants_witness :
    (∀ w ∈ (IntentCandidate.mk "unknown" ["sales"] [] 1).workspaces,
        w ∈ catalogIds demoCore) ∧
      0 ≤ (IntentCandidate.mk "unknown" ["sales"] [] 1).confidence ∧
      (IntentCandidate.mk "unknown" ["sales"] [] 1).confidence ≤ 1 ∧
      (IntentCandidate.mk "unknown" ["sales"] [] 1).intent_type ∈ intentTypes ∧
      ∀ s, s ∉ intentTypes → normalizeIntentType s = "unknown" :=
  extract_candidate_invariants demoCore "Show me sales in Mumbai for last month"
    (IntentCandidate.mk "unknown" ["sales"] [] 1) (by decide)

/-- C4: the status aggregator's "operational" flag depends only on the two
required external collaborators being initialized (non-null) — the catalog
and index contents are quantified away — and the status endpoint answers
the error envelope with 500 (rather than raising) when the orchestrator
never initialized, and the operational snapshot otherwise. -/
theorem status_operational_iff_collaborators :
    (∀ (cat : List WorkspaceEntry) (idx : List String) (emb lm : Option Unit)
        (r : String → Except Fault AgentResult),
        (get_pipeline_status ⟨cat, idx, emb, lm, r⟩).operational =
          (emb.isSome && lm.isSome)) ∧
    (∀ o : Orchestrator,
        get_status (some o) = .operationalResp (get_pipeline_status o) 200) ∧
    get_status none = .errorStatus "Orchestrator not initialized" 500 :=
  ⟨fun _ _ _ _ _ => rfl, fun _ => rfl, rfl⟩

/-- C5 counterexample: when the pipeline fails with an
external-service fault, the reply actually delivered to the HTTP caller is
the generic stringified envelope `error = "Internal server error"` /
`message = str(e)` with 500 — and it is byte-for-byte the reply produced
by a fault of a completely different kind, so the distinct kind is lost. -/
theorem intent_failure_response_loses_kind :
    get_intent none (fun _ => .error ⟨.externalService, "timeout"⟩)
        ⟨true, true, "Show me sales in Mumbai for last month", true⟩ =
      .failureResp "Internal server error" "timeout" 500 ∧
    get_intent none (fun _ => .error ⟨.externalService, "timeout"⟩)
        ⟨true, true, "Show me sales in Mumbai for last month", true⟩ =
      get_intent none (fun _ => .error ⟨.otherFault, "timeout"⟩)
        ⟨true, true, "Show me sales in Mumbai for last month", true⟩ :=
  ⟨rfl, rfl⟩

/-- C5 (amended): when the language-understanding call fails, extract()
fails with the distinct ExternalServiceError kind — never a default or
zero-confidence candidate — while the transport shell's broad handler
flattens any pipeline fault into the generic "Internal server error"
envelope that keeps only the stringified message. -/
theorem extract_service_failure_distinct_then_flattened :
    (∀ (o : OrchestratorCore) (q d : String),
        o.completeDraft q (resolvedWorkspaces o q) = .error d →
          extract o q = .error (.externalServiceError d)) ∧
    (∀ (f : Fault) (query : String) (im : Bool),
        respond query im (.error f) =
          .failureResp "Internal server error" f.detail 500) := by
  constructor
  · intro o q d hd
    unfold extract
    rw [hd]
  · intro f query im
    rfl

/-- C5 witness: a concrete orchestrator whose language service times out. -/
theorem extract_service_failure_distinct_then_flattened_witness :
    extract ⟨[⟨"sales", "Sales"⟩], fun _ => ["sales"], fun _ _ => .error "timeout"⟩
        "Show me sales in Mumbai for last month" =
      .error (.externalServiceError "timeout") :=
  extract_service_failure_distinct_then_flattened.1
    ⟨[⟨"sales", "Sales"⟩], fun _ => ["sales"], fun _ _ => .error "timeout"⟩
    "Show me sales in Mumbai for last month" "timeout" rfl

/-- The query a call tag carries is the query it was built from. -/
theorem callQuery_callTag (orch : Option Orchestrator) (q : String) :
    callQuery (callTag orch q) = q := by
  cases orch <;> rfl

/-- C6: the shell invokes the pipeline only with the whitespace-trimmed,
non-empty query, and a request whose query is empty after trimming (or
absent, read as the empty string) is rejected with the 400 error reply
before any pipeline invocation. -/
theorem shell_rejects_empty_query_before_pipeline
    (orch : Option Orchestrator) (fallback : String → Except Fault AgentResult)
    (req : IntentRequest) :
    (∀ c ∈ (get_intentRun orch fallback req).2,
        callQuery c = pyStrip req.query ∧ callQuery c ≠ "") ∧
    (req.isJson = true → req.hasBody = true → pyStrip req.query = "" →
      (get_intentRun orch fallback req).1 =
          .errorResp "Query field is required and cannot be empty" 400 ∧
        (get_intentRun orch fallback req).2 = []) := by
  cases hj : req.isJson with
  | false =>
      refine ⟨?_, ?_⟩
      · intro c hc
        simp [get_intentRun, hj] at hc
      · intro h1
        exact Bool.noConfusion h1
  | true =>
      cases hb : req.hasBody with
      | false =>
          refine ⟨?_, ?_⟩
          · intro c hc
            simp [get_intentRun, hj, hb] at hc
          · intro _ h2
            exact Bool.noConfusion h2
      | true =>
          by_cases hq : pyStrip req.query = ""
          · refine ⟨?_, ?_⟩
            · intro c hc
              simp [get_intentRun, hj, hb, hq] at hc
            · intro _ _ _
              exact ⟨by simp [get_intentRun, hj, hb, hq],
                by simp [get_intentRun, hj, hb, hq]⟩
          · refine ⟨?_, ?_⟩
            · intro c hc
              simp [get_intentRun, hj, hb, hq] at hc
              subst hc
              exact ⟨callQuery_callTag orch (pyStrip req.query),
                by rw [callQuery_callTag]; exact hq⟩
            · intro _ _ h3
              exact absurd h3 hq

/-- A completed pipeline result carrying a semantic rejection: coherent
but not valid, with a non-empty reason. -/
def demoRejection : AgentResult :=
  { intent_analysis :=
      { validation :=
          { is_coherent := true, is_valid := false, reasons := ["ambiguous subject"] }
        intent := none }
    metadata := [] }

/-- C6 witness: a whitespace-only query is rejected with 400 and the
pipeline is never invoked. -/
theorem shell_rejects_empty_query_before_pipeline_witness :
    (get_intentRun none (fun _ => .ok demoRejection) ⟨true, true, "   ", true⟩).1 =
        .errorResp "Query field is required and cannot be empty" 400 ∧
      (get_intentRun none (fun _ => .ok demoRejection) ⟨true, true, "   ", true⟩).2 = [] :=
  (shell_rejects_empty_query_before_pipeline none (fun _ => .ok demoRejection)
      ⟨true, true, "   ", true⟩).2 rfl rfl (by decide)

/-- C7: whenever the pipeline run completes with a structured result, the
shell answers the 200 success envelope embedding that result's verdict —
a semantic rejection travels in the structured result channel, never in
the error path. -/
theorem semantic_rejection_uses_result_channel
    (orch : Option Orchestrator) (fallback : String → Except Fault AgentResult)
    (req : IntentRequest) (r : AgentResult)
    (hj : req.isJson = true) (hb : req.hasBody = true) (hq : pyStrip req.query ≠ "")
    (hr : pipelineFor orch fallback (pyStrip req.query) = .ok r) :
    get_intent orch fallback req =
      .successResp (pyStrip req.query) r.intent_analysis
        (if req.include_metadata then some r.metadata else none) 200 := by
  unfold get_intent get_intentRun
  simp [hj, hb, hq, hr, respond]

/-- C7 witness: the ambiguous-subject scenario — a completed run whose
verdict is a rejection still produces the 200 success envelope embedding
that verdict. -/
theorem semantic_rejection_uses_result_channel_witness :
    get_intent none (fun _ => .ok demoRejection) ⟨true, true, "Update status", true⟩ =
      .successResp (pyStrip "Update status") demoRejection.intent_analysis
        (some demoRejection.metadata) 200 := by
  have h := semantic_rejection_uses_result_channel none (fun _ => .ok demoRejection)
    ⟨true, true, "Update status", true⟩ demoRejection rfl rfl (by decide) rfl
  simpa using h

/-- C9: with the global orchestrator uninitialized, a well-formed request
still reaches the pipeline through the module-level fallback and is
answered from its outcome, even though the status endpoint simultaneously
reports the orchestrator as not initialized with the 500 error envelope. -/
theorem none_orchestrator_fallback_still_runs
    (fallback : String → Except Fault AgentResult) (req : IntentRequest)
    (hj : req.isJson = true) (hb : req.hasBody = true) (hq : pyStrip req.query ≠ "") :
    (get_intentRun none fallback req).2 = [.viaFallback (pyStrip req.query)] ∧
      (get_intentRun none fallback req).1 =
        respond (pyStrip req.query) req.include_metadata (fallback (pyStrip req.query)) ∧
      get_status none = .errorStatus "Orchestrator not initialized" 500 := by
  refine ⟨?_, ?_, rfl⟩ <;> simp [get_intentRun, hj, hb, hq, pipelineFor, callTag]

/-- C9 witness: a concrete request against the uninitialized orchestrator. -/
theorem none_orchestrator_fallback_still_runs_witness :
    (get_intentRun none (fun _ => .ok demoRejection)
          ⟨true, true, "Update status", true⟩).2 =
        [.viaFallback (pyStrip "Update status")] ∧
      get_status none = .errorStatus "Orchestrator not initialized" 500 := by
  have h := none_orchestrator_fallback_still_runs (fun _ => .ok demoRejection)
    ⟨true, true, "Update status", true⟩ rfl rfl (by decide)
  exact ⟨h.1, h.2.2⟩

/-- C10: the health check reports "healthy" with 200 exactly when the
orchestrator is initialized, and "degraded" with 503 otherwise; the
catalog and index sizes appear in the checks (via the pipeline snapshot)
but never affect the healthy/degraded outcome. -/
theorem health_check_healthy_iff_initialized :
    (∀ orch : Option Orchestrator,
        ((health_check orch).status = "healthy" ∧ (health_check orch).code = 200) ↔
          orch.isSome = true) ∧
    ((health_check none).status = "degraded" ∧ (health_check none).code = 503) ∧
    (∀ o : Orchestrator,
        (health_check (some o)).checks.pipeline_components =
            some (get_pipeline_status o) ∧
          (health_check (some o)).status = "healthy" ∧
          (health_check (some o)).code = 200) := by
  refine ⟨?_, ⟨rfl, rfl⟩, fun o => ⟨rfl, rfl, rfl⟩⟩
  intro orch
  cases orch with
  | none =>
      constructor
      · intro h
        exact absurd h.1 (by decide)
      · intro h
        exact absurd h (by decide)
  | some o =>
      constructor
      · intro _
        rfl
      · intro _
        exact ⟨rfl, rfl⟩

end IntentAgent
